import Mathlib

/- Shallow embedding of the lirinton/document-scanner repository:
   src/app.py (Flask orchestrator), src/scanner.py (camera capture and
   image preprocessing) and src/ocr_processor.py (Tesseract wrapper).
   Pure control flow is translated directly; calls into external
   libraries (cv2, PIL, pytesseract, the camera device, the filesystem
   and the clock) are represented by explicit outcome parameters, and a
   call that may raise is modelled as an Except PyExc value. -/

namespace DocumentScanner

/-- A Python exception as observed by the except handlers in the source.
pytesseract.TesseractNotFoundError is kept as its own constructor because
ocr_processor.ocr_image names it in a dedicated handler; every other
exception is carried as its str() text.  Both constructors model
subclasses of Exception, so an except-Exception clause catches both. -/
inductive PyExc where
  | tesseractNotFound (msg : String)
  | exc (msg : String)
deriving DecidableEq

/-- Python str() of a modelled exception. -/
def str_of_exc : PyExc → String
  | PyExc.tesseractNotFound m => m
  | PyExc.exc m => m

/-- Python truthiness of an optional string: None and the empty string
are falsy, every other string is truthy.  Used for the checks of
capture_error and ocr_error in app.perform_scan. -/
def truthy : Option String → Bool
  | none => false
  | some s => s != ""

/-- The shape of last_scan_result (app.py lines 28 to 33).  time.time()
timestamps are modelled as Nat and Python None as Option.none. -/
structure ScanResult where
  text : String
  timestamp : Option Nat
  success : Bool
  error : Option String
deriving DecidableEq

/-- Module-level initial value of last_scan_result. -/
def initial_result : ScanResult :=
  { text := "", timestamp := none, success := false, error := none }

/-- Python str.strip() with no argument: remove leading and trailing
whitespace.  Implemented over the character list so that it evaluates
by kernel reduction. -/
def py_strip (s : String) : String :=
  String.mk
    (((s.data.dropWhile Char.isWhitespace).reverse.dropWhile
        Char.isWhitespace).reverse)

/-- Outcomes of the external calls made by ocr_processor.ocr_image:
os.path.exists(image_path) (which can itself raise, for instance a
TypeError when app.py passes image_path = None), PIL Image.open together
with the mode check and conversion, and pytesseract.image_to_string. -/
structure OcrEnv where
  path_exists : Except PyExc Bool
  image_open : Except PyExc Unit
  image_to_string : Except PyExc String

/-- Embedding of ocr_processor.ocr_image (ocr_processor.py lines 9 to 46).
The inner try wraps Image.open, the conversion and image_to_string, and
its handler catches every Exception, so a TesseractNotFoundError raised
by image_to_string is converted to the generic Image processing error
text right there; the dedicated outer TesseractNotFoundError handler is
reachable only from the os.path.exists call.  A successful call returns
text.strip() (py_strip here) and no error. -/
def ocr_image (env : OcrEnv) : Option String × Option String :=
  match env.path_exists with
  | Except.error (PyExc.tesseractNotFound _) =>
      (none, some "Tesseract OCR not installed. Please run: sudo apt install tesseract-ocr")
  | Except.error (PyExc.exc m) =>
      (none, some ("OCR processing error: " ++ m))
  | Except.ok false => (none, some "Image file not found")
  | Except.ok true =>
      match env.image_open with
      | Except.error e => (none, some ("Image processing error: " ++ str_of_exc e))
      | Except.ok _ =>
          match env.image_to_string with
          | Except.error e => (none, some ("Image processing error: " ++ str_of_exc e))
          | Except.ok text => (some (py_strip text), none)

/-- Grayscale image: rows of 8-bit intensities. -/
structure GrayImage where
  pixels : List (List Nat)
deriving DecidableEq

/-- A numpy image as tested by the dimension check in
scanner.preprocess_image: color is a three-dimensional array (rows of
BGR triples), gray a two-dimensional one. -/
inductive Image where
  | color (pixels : List (List (Nat × Nat × Nat)))
  | gray (g : GrayImage)
deriving DecidableEq

/-- Outcomes of the cv2 calls made by scanner.preprocess_image, each
with its parameters fixed exactly as in the source: cvtColor with
COLOR_BGR2GRAY, GaussianBlur with kernel (3, 3) and sigma 0, CLAHE with
clipLimit 2.0 and tileGridSize (8, 8), and the Otsu threshold selection
performed by cv2.threshold under THRESH_BINARY + THRESH_OTSU.  Any of
the calls may raise. -/
structure Cv2 where
  cvtColor_bgr2gray : List (List (Nat × Nat × Nat)) → Except PyExc GrayImage
  gaussian_blur_3x3 : GrayImage → Except PyExc GrayImage
  clahe_2_8x8 : GrayImage → Except PyExc GrayImage
  otsu_threshold : GrayImage → Except PyExc Nat

/-- Modelled from the spec: the pixel map of cv2.threshold under
THRESH_BINARY with maxval 255 (binarize via global automatic
thresholding producing a two-level image): a pixel strictly above the
selected threshold becomes 255 and every other pixel becomes 0.  The
variance-based selection of the threshold value itself stays abstract
in Cv2.otsu_threshold. -/
def thresh_binary (t : Nat) (g : GrayImage) : GrayImage :=
  { pixels := g.pixels.map (fun row => row.map (fun p => if t < p then 255 else 0)) }

/-- Grayscale conversion step of scanner.preprocess_image: cvtColor is
called only when the input has three dimensions; a gray input is passed
through unchanged. -/
def to_gray (cv : Cv2) : Image → Except PyExc GrayImage
  | Image.color px => cv.cvtColor_bgr2gray px
  | Image.gray g => Except.ok g

/-- Body of the try block of scanner.preprocess_image: grayscale
conversion, Gaussian blur, CLAHE, Otsu thresholding, in this order; the
first raising step aborts the chain. -/
def enhance_chain (cv : Cv2) (image : Image) : Except PyExc GrayImage :=
  match to_gray cv image with
  | Except.error e => Except.error e
  | Except.ok gray =>
      match cv.gaussian_blur_3x3 gray with
      | Except.error e => Except.error e
      | Except.ok denoised =>
          match cv.clahe_2_8x8 denoised with
          | Except.error e => Except.error e
          | Except.ok enhanced =>
              match cv.otsu_threshold enhanced with
              | Except.error e => Except.error e
              | Except.ok t => Except.ok (thresh_binary t enhanced)

/-- Embedding of scanner.preprocess_image (scanner.py lines 88 to 114):
the try block runs the enhancement chain; the except handler returns the
original image unchanged. -/
def preprocess_image (cv : Cv2) (image : Image) : Image :=
  match enhance_chain cv image with
  | Except.ok binary => Image.gray binary
  | Except.error _ => image

/-- Device-level outcomes for scanner.capture_and_process_image: whether
the capture device opens, the result of the i-th cap.read() call (none
models ret = False or a None frame), whether cv2.imwrite succeeds, and
the generated temporary file path. -/
structure CameraEnv where
  opens : Bool
  read : Nat → Option Image
  imwrite_ok : Bool
  temp_path : String

/-- ASCII apostrophe, used to spell Python error texts. -/
def squote : String := String.singleton (Char.ofNat 39)

/-- The str() of the NameError raised by the statement time.sleep(0.1)
at scanner.py line 49: scanner.py never imports the time module, so the
name time is unbound in that file. -/
def namerror_time : String :=
  "name " ++ squote ++ "time" ++ squote ++ " is not defined"

/-- Evaluation of time.sleep(0.1) inside scanner.py: a NameError,
because the time module is not imported there. -/
def time_sleep : Except PyExc Unit := Except.error (PyExc.exc namerror_time)

/-- The warm-up for-loop of scanner.capture_and_process_image (lines 45
to 49): on each of the five iterations read a frame, take the early
return when the read fails, then run time.sleep(0.1).  The value
Except.ok (some e) models the early return carrying error e, and
Except.ok none a completed loop. -/
def warm_up_loop (cam : CameraEnv) : Nat → Nat → Except PyExc (Option String)
  | 0, _ => Except.ok none
  | Nat.succ n, i =>
      match cam.read i with
      | none => Except.ok (some "Failed to capture initial frames")
      | some _ =>
          match time_sleep with
          | Except.error e => Except.error e
          | Except.ok _ => warm_up_loop cam n (i + 1)

/-- Embedding of scanner.capture_and_process_image (scanner.py lines 31
to 86).  The resolution request via cap.set is best-effort with no
observable result, so it is not represented.  After the warm-up loop
the function reads one more frame, preprocesses it and writes it to the
temporary path; every Exception raised in the body is converted by the
except handler into a Capture error result, and the finally block
releases the device on every path. -/
def capture_and_process_image (cv : Cv2) (cam : CameraEnv) (camera_index : Nat) :
    Option String × Option String :=
  if cam.opens = false then
    (none, some ("Could not open camera " ++ toString camera_index))
  else
    match warm_up_loop cam 5 0 with
    | Except.error e => (none, some ("Capture error: " ++ str_of_exc e))
    | Except.ok (some msg) => (none, some msg)
    | Except.ok none =>
        match cam.read 5 with
        | none => (none, some "Failed to capture image frame")
        | some frame =>
            let _processed := preprocess_image cv frame
            if cam.imwrite_ok = false then
              (none, some "Failed to save processed image")
            else (some cam.temp_path, none)

/-- Outcomes of the external steps of one background pipeline run in
app.perform_scan: the call to scanner.capture_and_process_image, the
call to ocr_processor.ocr_image (each of which may in principle raise,
landing in the except-Exception handler of perform_scan), whether the
os.remove cleanup call succeeds, and the time.time() clock value used
for the published timestamp.  A capture return value of the form
(some path, none) means the processed image file was written at path. -/
structure PipelineEnv where
  capture : Except PyExc (Option String × Option String)
  ocr : Except PyExc (Option String × Option String)
  remove_ok : Bool
  now : Nat

/-- Observable outcome of one run of app.perform_scan: the ScanResult
stored into last_scan_result, the value of scan_in_progress after the
finally block, whether ocr_processor.ocr_image was invoked, and whether
the temporary image file still exists afterwards. -/
structure PipelineRun where
  result : ScanResult
  in_progress_after : Bool
  ocr_invoked : Bool
  temp_file_after : Bool
deriving DecidableEq

/-- Embedding of the body of app.perform_scan (app.py lines 77 to 136):
capture, the capture-error early return, OCR, best-effort removal of
the temporary file (a failing os.remove is swallowed by the bare except
clause and leaves the file in place; an exception from the OCR call
skips the removal entirely), the OCR-error and success results, the
except-Exception handler publishing an Unexpected error result, and the
finally block clearing scan_in_progress on every path. -/
def perform_scan (env : PipelineEnv) : PipelineRun :=
  match env.capture with
  | Except.error e =>
      { result := { text := "", timestamp := some env.now, success := false,
                    error := some ("Unexpected error: " ++ str_of_exc e) },
        in_progress_after := false, ocr_invoked := false, temp_file_after := false }
  | Except.ok (image_path, capture_error) =>
      if truthy capture_error then
        { result := { text := "", timestamp := some env.now, success := false,
                      error := some ("Capture failed: " ++ capture_error.getD "") },
          in_progress_after := false, ocr_invoked := false, temp_file_after := false }
      else
        match env.ocr with
        | Except.error e =>
            { result := { text := "", timestamp := some env.now, success := false,
                          error := some ("Unexpected error: " ++ str_of_exc e) },
              in_progress_after := false, ocr_invoked := true,
              temp_file_after := image_path.isSome }
        | Except.ok (text, ocr_error) =>
            if truthy ocr_error then
              { result := { text := "", timestamp := some env.now, success := false,
                            error := some ("OCR failed: " ++ ocr_error.getD "") },
                in_progress_after := false, ocr_invoked := true,
                temp_file_after := image_path.isSome && !env.remove_ok }
            else
              { result := { text := match text with
                                    | none => "No text detected"
                                    | some t => if t = "" then "No text detected" else t,
                            timestamp := some env.now, success := true, error := none },
                in_progress_after := false, ocr_invoked := true,
                temp_file_after := image_path.isSome && !env.remove_ok }

/-- HTTP response of the scan endpoint: Flask status code and the JSON
fields used by app.scan_document. -/
structure HttpResponse where
  status_code : Nat
  success : Bool
  error : Option String
  message : Option String
deriving DecidableEq

/-- Rejection response of POST /scan (app.py line 73). -/
def scan_response_rejected : HttpResponse :=
  { status_code := 429, success := false,
    error := some "Scan already in progress", message := none }

/-- Admission response of POST /scan (app.py line 142, default 200). -/
def scan_response_admitted : HttpResponse :=
  { status_code := 200, success := true,
    error := none, message := some "Scan started successfully" }

/-- Process-wide mutable state of app.py: the scan_in_progress flag, the
cached last_scan_result, and (for the single-flight analysis) the
number of background pipeline threads currently running. -/
structure ServerState where
  scan_in_progress : Bool
  running : Nat
  last_scan_result : ScanResult
deriving DecidableEq

/-- State at process start. -/
def init_state : ServerState :=
  { scan_in_progress := false, running := 0, last_scan_result := initial_result }

/-- Embedding of the admission part of app.scan_document (app.py lines
66 to 76 and 138 to 142).  The body guarded by the scan_lock context
manager holds the admission lock, so the check of scan_in_progress and
its update form one atomic step; the background thread is started, and
the lock released, before the pipeline runs, which the event model
below reflects by making admission and pipeline completion separate
atomic events. -/
def scan_document (s : ServerState) : HttpResponse × ServerState :=
  if s.scan_in_progress then (scan_response_rejected, s)
  else
    (scan_response_admitted,
      { s with scan_in_progress := true, running := s.running + 1 })

/-- Atomic events of the orchestrator: an incoming POST /scan trigger,
or a running background pipeline reaching its end (the result
publication together with the finally block). -/
inductive Event where
  | trigger
  | finish (env : PipelineEnv)

/-- One step of the orchestrator state machine. -/
def step (s : ServerState) (e : Event) : ServerState :=
  match e with
  | Event.trigger => (scan_document s).2
  | Event.finish env =>
      if s.running = 0 then s
      else
        { scan_in_progress := (perform_scan env).in_progress_after,
          running := s.running - 1,
          last_scan_result := (perform_scan env).result }

/-- State reached from process start after a sequence of events. -/
def reach (es : List Event) : ServerState := es.foldl step init_state

/-- Single-flight invariant: the number of running pipelines is one
exactly when scan_in_progress is set, and zero otherwise. -/
def server_inv (s : ServerState) : Prop :=
  s.running = (if s.scan_in_progress then 1 else 0)

/-- Camera resolution constant of app.py line 17. -/
def CAMERA_RESOLUTION : Nat × Nat := (1920, 1080)

/-- JSON object built by app.get_camera_status; the error key is absent
on the non-raising branches, modelled as none. -/
structure CameraStatus where
  camera_online : Bool
  resolution : Option (Nat × Nat)
  status : String
  error : Option String
deriving DecidableEq

/-- Embedding of app.get_camera_status (app.py lines 37 to 52), a
function of the outcome of the scanner.check_camera_available probe
call. -/
def get_camera_status (probe : Except PyExc Bool) : CameraStatus :=
  match probe with
  | Except.ok available =>
      { camera_online := available,
        resolution := if available then some CAMERA_RESOLUTION else none,
        status := if available then "online" else "offline",
        error := none }
  | Except.error e =>
      { camera_online := false, resolution := none,
        status := "error", error := some (str_of_exc e) }

/-- Concrete camera for the capture bug: device opens, every read
succeeds, imwrite would succeed. -/
def cam_c3 : CameraEnv :=
  { opens := true, read := fun _ => some (Image.gray { pixels := [[0]] }),
    imwrite_ok := true, temp_path := "tmp" }

/-- Concrete cv2 model whose calls all succeed. -/
def cv_c3 : Cv2 :=
  { cvtColor_bgr2gray := fun _ => Except.ok { pixels := [] },
    gaussian_blur_3x3 := fun g => Except.ok g,
    clahe_2_8x8 := fun g => Except.ok g,
    otsu_threshold := fun _ => Except.ok 0 }

/-- Concrete pipeline run whose capture step fails with detail boom. -/
def env_c4 : PipelineEnv :=
  { capture := Except.ok (none, some "boom"),
    ocr := Except.ok (none, none), remove_ok := true, now := 7 }

/-- Modelled text of the pytesseract TesseractNotFoundError. -/
def tess_missing_msg : String :=
  "tesseract is not installed or it is not in your PATH"

/-- Concrete OCR environment: the file exists, the image opens, and
pytesseract raises TesseractNotFoundError. -/
def oenv_c5 : OcrEnv :=
  { path_exists := Except.ok true, image_open := Except.ok (),
    image_to_string := Except.error (PyExc.tesseractNotFound tess_missing_msg) }

/-- Concrete pipeline run: capture succeeded, OCR failed with detail
boom. -/
def env_c5 : PipelineEnv :=
  { capture := Except.ok (some "img", none),
    ocr := Except.ok (none, some "boom"), remove_ok := true, now := 3 }

/-- Concrete OCR environment returning raw text with surrounding
whitespace. -/
def oenv_c6 : OcrEnv :=
  { path_exists := Except.ok true, image_open := Except.ok (),
    image_to_string := Except.ok "  Hello  " }

/-- Concrete pipeline run wired to the OCR model oenv_c6. -/
def env_c6 : PipelineEnv :=
  { capture := Except.ok (some "img", none),
    ocr := Except.ok (ocr_image oenv_c6), remove_ok := true, now := 5 }

/-- Concrete cv2 model whose Gaussian blur call raises. -/
def cv_c7 : Cv2 :=
  { cvtColor_bgr2gray := fun _ => Except.ok { pixels := [] },
    gaussian_blur_3x3 := fun _ => Except.error (PyExc.exc "cv2 failure"),
    clahe_2_8x8 := fun g => Except.ok g,
    otsu_threshold := fun _ => Except.ok 0 }

/-- Concrete input frame for the fallback witness. -/
def img_c7 : Image := Image.gray { pixels := [[1, 2]] }

/-- Concrete grayscale frame for the enhancement witness. -/
def g_c8 : GrayImage := { pixels := [[50, 200]] }

/-- Concrete cv2 model: blur and CLAHE act as identity, Otsu selects
threshold 100. -/
def cv_c8 : Cv2 :=
  { cvtColor_bgr2gray := fun _ => Except.ok { pixels := [] },
    gaussian_blur_3x3 := fun g => Except.ok g,
    clahe_2_8x8 := fun g => Except.ok g,
    otsu_threshold := fun _ => Except.ok 100 }

/-- Concrete input frame for the enhancement witness. -/
def img_c8 : Image := Image.gray g_c8

/-- Concrete pipeline run: capture succeeded, then the OCR call raises,
so the cleanup is skipped. -/
def env_c9 : PipelineEnv :=
  { capture := Except.ok (some "img", none),
    ocr := Except.error (PyExc.exc "boom"), remove_ok := true, now := 1 }

/-- Concrete pipeline run: capture and OCR succeed, removal succeeds. -/
def env_c9b : PipelineEnv :=
  { capture := Except.ok (some "img", none),
    ocr := Except.ok (some "txt", none), remove_ok := true, now := 2 }

lemma truthy_some_true {d : String} (hd : d ≠ "") : truthy (some d) = true := by
  simp [truthy, bne_iff_ne, hd]

lemma perform_scan_flag (env : PipelineEnv) :
    (perform_scan env).in_progress_after = false := by
  unfold perform_scan
  rcases env.capture with e | ⟨p, ce⟩
  · rfl
  · dsimp only
    by_cases h : truthy ce
    · simp [h]
    · simp only [h, Bool.false_eq_true, if_false]
      rcases env.ocr with e2 | ⟨t, oe⟩
      · rfl
      · dsimp only
        by_cases h2 : truthy oe <;> simp [h2]

lemma perform_scan_timestamp (env : PipelineEnv) :
    (perform_scan env).result.timestamp = some env.now := by
  unfold perform_scan
  rcases env.capture with e | ⟨p, ce⟩
  · rfl
  · dsimp only
    by_cases h : truthy ce
    · simp [h]
    · simp only [h, Bool.false_eq_true, if_false]
      rcases env.ocr with e2 | ⟨t, oe⟩
      · rfl
      · dsimp only
        by_cases h2 : truthy oe <;> simp [h2]

lemma server_inv_init : server_inv init_state := rfl

lemma server_inv_step (s : ServerState) (e : Event) (h : server_inv s) :
    server_inv (step s e) := by
  unfold server_inv at h ⊢
  cases e with
  | trigger =>
      unfold step scan_document
      by_cases hf : s.scan_in_progress
      · simp [hf] at h ⊢
        exact h
      · simp [hf] at h ⊢
        omega
  | finish env =>
      unfold step
      by_cases hr : s.running = 0
      · simpa [hr] using h
      · simp [hr, perform_scan_flag]
        by_cases hf : s.scan_in_progress
        · rw [if_pos hf] at h
          omega
        · rw [if_neg hf] at h
          omega

lemma server_inv_reach (es : List Event) : server_inv (reach es) := by
  unfold reach
  have H : ∀ (l : List Event) (s : ServerState),
      server_inv s → server_inv (List.foldl step s l) := by
    intro l
    induction l with
    | nil => intro s hs; simpa using hs
    | cons e t ih => intro s hs; exact ih _ (server_inv_step s e hs)
  exact H es init_state server_inv_init

lemma thresh_binary_two_level (t : Nat) (g : GrayImage) :
    ∀ row ∈ (thresh_binary t g).pixels, ∀ p ∈ row, p = 0 ∨ p = 255 := by
  intro row hrow p hp
  simp only [thresh_binary, List.mem_map] at hrow
  obtain ⟨row0, -, rfl⟩ := hrow
  simp only [List.mem_map] at hp
  obtain ⟨p0, -, rfl⟩ := hp
  by_cases h : t < p0
  · right; simp [h]
  · left; simp [h]

/-- C1: single-flight admission.  Over every event sequence from process
start, the number of running pipelines never exceeds one; a trigger
arriving while scan_in_progress is set returns the 429 rejection with
body success false and the error text Scan already in progress, leaving
the state (and thus the pipeline count) unchanged; a trigger arriving
while the flag is clear returns the admission response, sets the flag
under the admission lock, and starts exactly one pipeline.  The lock is
modelled by admission being one atomic event, released before the
separate pipeline-completion event. -/
theorem C1_single_flight_admission (es : List Event) :
    (reach es).running ≤ 1 ∧
    ((reach es).scan_in_progress = true →
      scan_document (reach es) = (scan_response_rejected, reach es)) ∧
    ((reach es).scan_in_progress = false →
      scan_document (reach es) =
        (scan_response_admitted,
          { scan_in_progress := true, running := (reach es).running + 1,
            last_scan_result := (reach es).last_scan_result })) := by
  have h := server_inv_reach es
  unfold server_inv at h
  refine ⟨?_, ?_, ?_⟩
  · by_cases hf : (reach es).scan_in_progress <;> simp [hf] at h <;> omega
  · intro hf
    unfold scan_document
    simp [hf]
  · intro hf
    unfold scan_document
    simp [hf]

/-- Witness for C1 at the concrete event sequence with one admitted
trigger: the state is in progress, and a second trigger is rejected
with the 429 response while the state stays unchanged. -/
theorem C1_single_flight_admission_witness :
    scan_document (reach [Event.trigger]) =
      (scan_response_rejected, reach [Event.trigger]) :=
  (C1_single_flight_admission [Event.trigger]).2.1 rfl

/-- C2: terminal publication.  Every pipeline run, whatever the outcomes
of its capture and OCR calls (value or raised exception), yields a
published ScanResult whose timestamp is the clock reading of the run,
and leaves scan_in_progress cleared.  The embedding perform_scan is a
total function, so no exception propagates past the pipeline
boundary. -/
theorem C2_terminal_publication (env : PipelineEnv) :
    (perform_scan env).in_progress_after = false ∧
    (perform_scan env).result.timestamp = some env.now :=
  ⟨perform_scan_flag env, perform_scan_timestamp env⟩

/-- C3: warm-up capture.  Code bug: scanner.py calls time.sleep(0.1) in
the warm-up loop but never imports time, so whenever the camera opens
and all frame reads succeed the first loop iteration raises NameError
and the function returns a Capture error instead of discarding the
warm-up frames and returning the next frame. -/
theorem C3_capture_warmup_bug (cv : Cv2) (cam : CameraEnv) (idx : Nat)
    (hopen : cam.opens = true) (hread : ∀ i, (cam.read i).isSome) :
    capture_and_process_image cv cam idx =
      (none, some ("Capture error: " ++ namerror_time)) := by
  obtain ⟨f, hf⟩ := Option.isSome_iff_exists.mp (hread 0)
  have h5 : warm_up_loop cam 5 0 = Except.error (PyExc.exc namerror_time) := by
    show warm_up_loop cam (Nat.succ 4) 0 = Except.error (PyExc.exc namerror_time)
    simp [warm_up_loop, hf, time_sleep]
  unfold capture_and_process_image
  simp [hopen, h5, str_of_exc]

/-- Witness for C3 at a concrete always-succeeding camera. -/
theorem C3_capture_warmup_bug_witness :
    capture_and_process_image cv_c3 cam_c3 0 =
      (none, some ("Capture error: " ++ namerror_time)) :=
  C3_capture_warmup_bug cv_c3 cam_c3 0 rfl (fun _ => rfl)

/-- C4 as stated is false: the published capture-failure error text is
Capture failed with a capital C, not lowercase capture failed.  At the
concrete failing capture with detail boom, the published error is not
the lowercase string the claim names. -/
theorem C4_capture_failure_counterexample :
    ¬ ((perform_scan env_c4).result.error =
        some ("capture failed: " ++ "boom")) := by
  decide

/-- C4 amended: for every pipeline run in which the capture step returns
an error detail, recognition is never invoked and the published result
is text empty, success false, error Capture failed followed by the
detail. -/
theorem C4_capture_failure_amended (env : PipelineEnv) (p : Option String)
    (d : String) (hc : env.capture = Except.ok (p, some d)) (hd : d ≠ "") :
    (perform_scan env).ocr_invoked = false ∧
    (perform_scan env).result =
      { text := "", timestamp := some env.now, success := false,
        error := some ("Capture failed: " ++ d) } := by
  have ht : truthy (some d) = true := truthy_some_true hd
  refine ⟨?_, ?_⟩ <;>
    simp [perform_scan, hc, ht]

/-- Witness for the amended C4 at the concrete failing capture. -/
theorem C4_capture_failure_witness :
    (perform_scan env_c4).ocr_invoked = false ∧
    (perform_scan env_c4).result =
      { text := "", timestamp := some 7, success := false,
        error := some "Capture failed: boom" } :=
  C4_capture_failure_amended env_c4 none "boom" rfl (by decide)

/-- C5 as stated is false: the published recognition-failure error text
starts with OCR failed, not recognition failed; moreover, when the
recognition engine is missing, ocr_image reports the generic Image
processing error text (the TesseractNotFoundError is caught by the
inner except-Exception handler), not the dedicated Tesseract OCR not
installed message. -/
theorem C5_recognition_failure_counterexample :
    ¬ ((perform_scan env_c5).result.error =
        some ("recognition failed: " ++ "boom")) ∧
    ocr_image oenv_c5 =
      (none, some ("Image processing error: " ++ tess_missing_msg)) ∧
    ¬ (ocr_image oenv_c5 =
        (none, some "Tesseract OCR not installed. Please run: sudo apt install tesseract-ocr")) := by
  refine ⟨by decide, by decide, by decide⟩

/-- C5 amended: when capture succeeds and the OCR step reports an error
detail, the published result is text empty, success false, error OCR
failed followed by the detail; and when the engine is missing, the
TesseractNotFoundError raised by image_to_string is caught by the
generic inner handler of ocr_image, so the reported detail is Image
processing error followed by the exception text, never the dedicated
Tesseract OCR not installed message. -/
theorem C5_recognition_failure_amended (env : PipelineEnv) (p d : String)
    (oenv : OcrEnv) (m : String)
    (hc : env.capture = Except.ok (some p, none))
    (ho : env.ocr = Except.ok (none, some d))
    (hd : d ≠ "")
    (h1 : oenv.path_exists = Except.ok true)
    (h2 : oenv.image_open = Except.ok ())
    (h3 : oenv.image_to_string = Except.error (PyExc.tesseractNotFound m)) :
    (perform_scan env).result =
      { text := "", timestamp := some env.now, success := false,
        error := some ("OCR failed: " ++ d) } ∧
    ocr_image oenv = (none, some ("Image processing error: " ++ m)) := by
  have ht : truthy (some d) = true := truthy_some_true hd
  constructor
  · simp [perform_scan, hc, ho, truthy, ht, hd]
  · simp [ocr_image, h1, h2, h3, str_of_exc]

/-- Witness for the amended C5 at the concrete runs env_c5 and
oenv_c5. -/
theorem C5_recognition_failure_witness :
    (perform_scan env_c5).result =
      { text := "", timestamp := some 3, success := false,
        error := some "OCR failed: boom" } ∧
    ocr_image oenv_c5 =
      (none, some ("Image processing error: " ++ tess_missing_msg)) := by
  have h := C5_recognition_failure_amended env_c5 "img" "boom" oenv_c5
    tess_missing_msg rfl rfl (by decide) rfl rfl rfl
  exact h

/-- C6: success path.  When capture succeeds and recognition returns raw
text s, the published result has success true and no error, and its
text is the trimmed s when that is non-empty and the placeholder No
text detected otherwise (ocr_image returns the trimmed text, and
perform_scan substitutes the placeholder for an empty string). -/
theorem C6_success_path (env : PipelineEnv) (p : String) (oenv : OcrEnv)
    (s : String)
    (hc : env.capture = Except.ok (some p, none))
    (he : oenv.path_exists = Except.ok true)
    (ho : oenv.image_open = Except.ok ())
    (ht : oenv.image_to_string = Except.ok s)
    (hocr : env.ocr = Except.ok (ocr_image oenv)) :
    (perform_scan env).result =
      { text := if py_strip s = "" then "No text detected" else py_strip s,
        timestamp := some env.now, success := true, error := none } := by
  have h1 : ocr_image oenv = (some (py_strip s), none) := by
    simp [ocr_image, he, ho, ht]
  rw [h1] at hocr
  simp [perform_scan, hc, hocr, truthy]

/-- Witness for C6: recognized text with surrounding whitespace is
published trimmed, with success true and no error. -/
theorem C6_success_path_witness :
    (perform_scan env_c6).result =
      { text := "Hello", timestamp := some 5, success := true,
        error := none } := by
  have h := C6_success_path env_c6 "img" oenv_c6 "  Hello  " rfl rfl rfl rfl rfl
  exact h.trans (by decide)

/-- C7: enhancer totality and fallback.  preprocess_image is a total
function of the input frame and the cv2 call outcomes, so it never
raises past the pipeline boundary; and whenever any internal
enhancement step raises, the result is the unmodified input frame. -/
theorem C7_enhancer_fallback (cv : Cv2) (image : Image) (e : PyExc)
    (h : enhance_chain cv image = Except.error e) :
    preprocess_image cv image = image := by
  unfold preprocess_image
  rw [h]

/-- Witness for C7 at a concrete cv2 model whose blur step raises. -/
theorem C7_enhancer_fallback_witness :
    preprocess_image cv_c7 img_c7 = img_c7 :=
  C7_enhancer_fallback cv_c7 img_c7 (PyExc.exc "cv2 failure") rfl

/-- C8: enhancer algorithm.  When every step succeeds, the output of
preprocess_image is exactly the Otsu binarization of the CLAHE output
of the blurred grayscale conversion, computed in that order; the
grayscale conversion is the identity on an already single-channel
input; and every pixel of the non-fallback output is one of the two
levels 0 and 255. -/
theorem C8_enhancer_algorithm (cv : Cv2) (image : Image)
    (gray denoised enhanced : GrayImage) (t : Nat)
    (h1 : to_gray cv image = Except.ok gray)
    (h2 : cv.gaussian_blur_3x3 gray = Except.ok denoised)
    (h3 : cv.clahe_2_8x8 denoised = Except.ok enhanced)
    (h4 : cv.otsu_threshold enhanced = Except.ok t) :
    preprocess_image cv image = Image.gray (thresh_binary t enhanced) ∧
    (∀ g : GrayImage, to_gray cv (Image.gray g) = Except.ok g) ∧
    (∀ row ∈ (thresh_binary t enhanced).pixels, ∀ p ∈ row, p = 0 ∨ p = 255) := by
  refine ⟨?_, fun g => rfl, thresh_binary_two_level t enhanced⟩
  simp [preprocess_image, enhance_chain, h1, h2, h3, h4]

/-- Witness for C8 at a concrete frame and cv2 model with threshold
100: the pixel at 50 maps to 0 and the pixel at 200 maps to 255. -/
theorem C8_enhancer_algorithm_witness :
    preprocess_image cv_c8 img_c8 = Image.gray { pixels := [[0, 255]] } :=
  (C8_enhancer_algorithm cv_c8 img_c8 g_c8 g_c8 g_c8 100 rfl rfl rfl rfl).1

/-- C9 as stated is false: when the OCR call raises after a successful
capture, the except-Exception handler of perform_scan publishes the
Unexpected error result without ever reaching the cleanup block, so the
temporary image file still exists after the run. -/
theorem C9_temp_cleanup_counterexample :
    ¬ ((perform_scan env_c9).temp_file_after = false) := by
  decide

/-- C9 amended: on every run whose OCR call returns (rather than
raises) and whose os.remove call succeeds, the temporary file no longer
exists afterwards (on the capture-failure paths no file was created);
and the outcome of the removal never alters the published result or the
cleared flag: cleanup failure cannot mask the primary recorded
result. -/
theorem C9_temp_cleanup_amended (env : PipelineEnv) :
    ((∃ pr, env.ocr = Except.ok pr) → env.remove_ok = true →
      (perform_scan env).temp_file_after = false) ∧
    (∀ b, (perform_scan { env with remove_ok := b }).result =
            (perform_scan env).result ∧
          (perform_scan { env with remove_ok := b }).in_progress_after =
            (perform_scan env).in_progress_after) := by
  obtain ⟨cap, ocr, rok, now⟩ := env
  constructor
  · rintro ⟨⟨t, oe⟩, ho⟩ hr
    dsimp only at ho hr
    subst ho
    subst hr
    unfold perform_scan
    rcases cap with e | ⟨p, ce⟩
    · rfl
    · dsimp only
      by_cases h : truthy ce
      · simp [h]
      · simp only [h, Bool.false_eq_true, if_false]
        by_cases h2 : truthy oe <;> simp [h2]
  · intro b
    unfold perform_scan
    rcases cap with e | ⟨p, ce⟩
    · exact ⟨rfl, rfl⟩
    · dsimp only
      by_cases h : truthy ce
      · simp [h]
      · simp only [h, Bool.false_eq_true, if_false]
        rcases ocr with e2 | ⟨t, oe⟩
        · exact ⟨rfl, rfl⟩
        · dsimp only
          by_cases h2 : truthy oe <;> simp [h2]

/-- Witness for the amended C9: with a returning OCR call and a
successful removal the file is gone, and flipping the removal outcome
does not change the published result. -/
theorem C9_temp_cleanup_witness :
    (perform_scan env_c9b).temp_file_after = false ∧
    (perform_scan { env_c9b with remove_ok := false }).result =
      (perform_scan env_c9b).result := by
  have h := C9_temp_cleanup_amended env_c9b
  exact ⟨h.1 ⟨(some "txt", none), rfl⟩ rfl, (h.2 false).1⟩

/-- C10: the status query reports the configured constant resolution
(1920, 1080) exactly when the probe returns true, reports resolution
none with status offline and camera_online false when the probe returns
false, and converts a raised probe exception into a status error record
carrying the exception text; get_camera_status is total, so nothing
propagates to the caller, and its resolution field only ever holds the
configured constant or none. -/
theorem C10_camera_status :
    get_camera_status (Except.ok true) =
      { camera_online := true, resolution := some (1920, 1080),
        status := "online", error := none } ∧
    get_camera_status (Except.ok false) =
      { camera_online := false, resolution := none,
        status := "offline", error := none } ∧
    (∀ e : PyExc, get_camera_status (Except.error e) =
      { camera_online := false, resolution := none,
        status := "error", error := some (str_of_exc e) }) ∧
    (∀ probe : Except PyExc Bool,
      (get_camera_status probe).resolution = none ∨
      (get_camera_status probe).resolution = some CAMERA_RESOLUTION) := by
  refine ⟨rfl, rfl, fun e => rfl, fun probe => ?_⟩
  rcases probe with e | b
  · left; rfl
  · cases b
    · left; rfl
    · right; rfl

end DocumentScanner
